import Mathlib

/-!
# Easy-Ledger: verification of the ledger repository and aggregation engine

Shallow embedding of `src/lib/storage.ts` (the Ledger Repository) and the
calculations module (the Aggregation Engine) of the Easy-Ledger application.

Modelling conventions:
* JavaScript numbers are modelled as `Int` (years, months, timestamps) and
  `Rat` (balances); none of the verified properties depends on floating-point
  rounding.
* The browser `localStorage` is modelled by explicit state passing: every
  repository operation takes the stored `AppState` and returns the new stored
  `AppState` together with its return value.  An operation that does not call
  `saveData` returns the stored state unchanged.
* `generateId()` / `Date.now()` are impure; the embedding passes the generated
  identifiers and the current timestamp (and the current year/month for
  operations that read the wall clock) as explicit parameters.
* The JSON layer is modelled as the identity on well-typed payloads:
  `exportDataByRange` produces the payload structure directly, and
  `importData` receives the result of `JSON.parse` as an `Option ImportPayload`
  (`none` models an unparseable string).
-/

namespace Ledger

/-- Account type enumeration from `src/types/index.ts`. -/
inductive AccountType where
  | cash
  | debit
  | credit
  | digital
  | investment
  | loan
  | debt
deriving DecidableEq

/-- `Account` from `src/types/index.ts`. -/
structure Account where
  id : String
  name : String
  type : AccountType
  icon : String
  balance : Rat
  includeInTotal : Bool
  isHidden : Bool
  note : Option String := none
  billDay : Option Int := none
  repaymentDay : Option Int := none
  graceDays : Option Int := none
deriving DecidableEq

/-- `MonthlyRecord` from `src/types/index.ts`. -/
structure MonthlyRecord where
  id : String
  accountId : String
  year : Int
  month : Int
  balance : Rat
deriving DecidableEq

/-- Operation kinds recorded in a `RecordLog`. -/
inductive OperationType where
  | balance_change
  | account_create
  | account_edit
deriving DecidableEq

/-- `RecordLog` from `src/types/index.ts` (`operationType` is optional there). -/
structure RecordLog where
  id : String
  accountId : String
  accountName : String
  year : Int
  month : Int
  oldBalance : Rat
  newBalance : Rat
  timestamp : Int
  operationType : Option OperationType := none
deriving DecidableEq

/-- Theme enumeration from `src/types/index.ts`. -/
inductive Theme where
  | blue
  | green
  | orange
  | dark
  | purple
deriving DecidableEq

/-- `AppSettings` from `src/types/index.ts`. -/
structure AppSettings where
  hideBalance : Bool
  theme : Theme
deriving DecidableEq

/-- The persisted document (`AppState` in `src/types/index.ts`). -/
structure AppState where
  accounts : List Account
  records : List MonthlyRecord
  logs : List RecordLog
  settings : AppSettings
  version : String
deriving DecidableEq

/-- `CURRENT_VERSION` constant of `storage.ts`. -/
def CURRENT_VERSION : String := "1.2"

/-- Default settings of `defaultState` in `storage.ts`. -/
def defaultSettings : AppSettings := { hideBalance := false, theme := Theme.blue }

/-- `defaultState` in `storage.ts`. -/
def defaultState : AppState :=
  { accounts := [], records := [], logs := [], settings := defaultSettings,
    version := CURRENT_VERSION }

/-- `loadData` of `storage.ts`, acting on a well-typed stored document: the
spread over `defaultState` is the identity on a complete document, and the
version field is rewritten to `CURRENT_VERSION`. -/
def loadData (s : AppState) : AppState :=
  { s with version := CURRENT_VERSION }

/-- The find condition used for monthly records throughout `storage.ts`:
`r.accountId === accountId && r.year === year && r.month === month`. -/
def recordMatches (accountId : String) (year month : Int) (r : MonthlyRecord) : Bool :=
  r.accountId == accountId && r.year == year && r.month == month

/-- The coordinates of a monthly record, i.e. the data the uniqueness
invariant of the spec speaks about. -/
def recordCoords (r : MonthlyRecord) : String × Int × Int :=
  (r.accountId, r.year, r.month)

/-- `existingRecord.balance = balance` on the result of `Array.prototype.find`:
update the balance of the first matching record, leave the rest alone. -/
def setFirstBalance (p : MonthlyRecord → Bool) (b : Rat) :
    List MonthlyRecord → List MonthlyRecord
  | [] => []
  | r :: rs =>
      if p r then { r with balance := b } :: rs else r :: setFirstBalance p b rs

/-- `Array.prototype.splice(index, 1)` at the index of the first match. -/
def eraseFirst (p : α → Bool) : List α → List α
  | [] => []
  | x :: xs => if p x then xs else x :: eraseFirst p xs

/-- In-place assignment `arr[index] = f arr[index]` at the first index
matching `p` (the `findIndex` / mutate idiom of the source). -/
def replaceFirst (p : α → Bool) (f : α → α) : List α → List α
  | [] => []
  | x :: xs => if p x then f x :: xs else x :: replaceFirst p f xs

/-! ## Repository mutations (`storage.ts`) -/

/-- `Partial<Account>` as passed to `updateAccount`; an absent field is
`none`. -/
structure AccountUpdates where
  id : Option String := none
  name : Option String := none
  type : Option AccountType := none
  icon : Option String := none
  balance : Option Rat := none
  includeInTotal : Option Bool := none
  isHidden : Option Bool := none
  note : Option String := none
  billDay : Option Int := none
  repaymentDay : Option Int := none
  graceDays : Option Int := none
deriving DecidableEq

/-- The spread `{ ...account, ...updates }`. -/
def applyUpdates (a : Account) (u : AccountUpdates) : Account :=
  { id := u.id.getD a.id
    name := u.name.getD a.name
    type := u.type.getD a.type
    icon := u.icon.getD a.icon
    balance := u.balance.getD a.balance
    includeInTotal := u.includeInTotal.getD a.includeInTotal
    isHidden := u.isHidden.getD a.isHidden
    note := match u.note with | some n => some n | none => a.note
    billDay := match u.billDay with | some d => some d | none => a.billDay
    repaymentDay := match u.repaymentDay with | some d => some d | none => a.repaymentDay
    graceDays := match u.graceDays with | some d => some d | none => a.graceDays }

/-- The `infoChanged` condition of `updateAccount`: one of name / note /
type / icon is supplied and differs from the old value. -/
def infoChanged (old : Account) (u : AccountUpdates) : Bool :=
  (match u.name with | some n => if n = old.name then false else true | none => false) ||
  (match u.note with | some n => if some n = old.note then false else true | none => false) ||
  (match u.type with | some t => if t = old.type then false else true | none => false) ||
  (match u.icon with | some i => if i = old.icon then false else true | none => false)

/-- `Omit<Account, 'id'>` as passed to `addAccount`. -/
structure NewAccountData where
  name : String
  type : AccountType
  icon : String
  balance : Rat
  includeInTotal : Bool
  isHidden : Bool
  note : Option String := none
  billDay : Option Int := none
  repaymentDay : Option Int := none
  graceDays : Option Int := none
deriving DecidableEq

/-- `addAccount` of `storage.ts`.  `accId`, `recId`, `logId` are the three
`generateId()` results, `now` is `Date.now()`, `curYear`/`curMonth` the
current wall-clock year and month. -/
def addAccount (accId recId logId : String) (now curYear curMonth : Int)
    (account : NewAccountData) (s : AppState) : Account × AppState :=
  let data := loadData s
  let newAccount : Account :=
    { id := accId, name := account.name, type := account.type, icon := account.icon,
      balance := account.balance, includeInTotal := account.includeInTotal,
      isHidden := account.isHidden, note := account.note, billDay := account.billDay,
      repaymentDay := account.repaymentDay, graceDays := account.graceDays }
  let records :=
    if newAccount.balance ≠ 0 then
      data.records ++
        [{ id := recId, accountId := newAccount.id, year := curYear, month := curMonth,
           balance := newAccount.balance }]
    else data.records
  let logs :=
    data.logs ++
      [{ id := logId, accountId := newAccount.id, accountName := newAccount.name,
         year := curYear, month := curMonth, oldBalance := 0,
         newBalance := newAccount.balance, timestamp := now,
         operationType := some OperationType.account_create }]
  (newAccount,
    { data with accounts := data.accounts ++ [newAccount], records := records, logs := logs })

/-- `updateAccount` of `storage.ts`.  `recId`, `balLogId`, `editLogId` are the
`generateId()` results used for (respectively) a freshly created monthly
record, the `balance_change` log and the `account_edit` log. -/
def updateAccount (recId balLogId editLogId : String) (now curYear curMonth : Int)
    (id : String) (updates : AccountUpdates) (s : AppState) : Option Account × AppState :=
  let data := loadData s
  match data.accounts.find? (fun a => a.id == id) with
  | none => (none, s)
  | some oldAccount =>
      let newAccount := applyUpdates oldAccount updates
      let accounts := replaceFirst (fun a => a.id == id) (fun a => applyUpdates a updates)
        data.accounts
      let step1 : List MonthlyRecord × List RecordLog :=
        match updates.balance with
        | some b =>
            if b ≠ oldAccount.balance then
              let records :=
                if data.records.any (recordMatches id curYear curMonth) then
                  setFirstBalance (recordMatches id curYear curMonth) b data.records
                else
                  data.records ++
                    [{ id := recId, accountId := id, year := curYear, month := curMonth,
                       balance := b }]
              (records,
                data.logs ++
                  [{ id := balLogId, accountId := id, accountName := newAccount.name,
                     year := curYear, month := curMonth, oldBalance := oldAccount.balance,
                     newBalance := b, timestamp := now,
                     operationType := some OperationType.balance_change }])
            else (data.records, data.logs)
        | none => (data.records, data.logs)
      let logs :=
        if infoChanged oldAccount updates then
          step1.2 ++
            [{ id := editLogId, accountId := id, accountName := newAccount.name,
               year := curYear, month := curMonth, oldBalance := oldAccount.balance,
               newBalance := newAccount.balance, timestamp := now,
               operationType := some OperationType.account_edit }]
        else step1.2
      (some newAccount,
        { data with accounts := accounts, records := step1.1, logs := logs })

/-- `deleteAccount` of `storage.ts`. -/
def deleteAccount (id : String) (s : AppState) : Bool × AppState :=
  let data := loadData s
  if data.accounts.any (fun a => a.id == id) then
    (true,
      { data with
        accounts := eraseFirst (fun a => a.id == id) data.accounts
        records := data.records.filter (fun r => !(r.accountId == id))
        logs := data.logs.filter (fun l => !(l.accountId == id)) })
  else (false, s)

/-- `setMonthlyRecord` of `storage.ts`.  `logId` and `recId` are the
`generateId()` results for the log and for a freshly created record. -/
def setMonthlyRecord (logId recId : String) (now : Int)
    (accountId : String) (year month : Int) (balance : Rat) (s : AppState) :
    MonthlyRecord × AppState :=
  let data := loadData s
  let account := data.accounts.find? (fun a => a.id == accountId)
  let existingRecord := data.records.find? (recordMatches accountId year month)
  let oldBalance :=
    match existingRecord with
    | some r => r.balance
    | none => match account with | some a => a.balance | none => 0
  let logs :=
    match account with
    | some a =>
        if oldBalance ≠ balance then
          data.logs ++
            [{ id := logId, accountId := accountId, accountName := a.name,
               year := year, month := month, oldBalance := oldBalance,
               newBalance := balance, timestamp := now,
               operationType := some OperationType.balance_change }]
        else data.logs
    | none => data.logs
  match existingRecord with
  | some r =>
      ({ r with balance := balance },
        { data with
          records := setFirstBalance (recordMatches accountId year month) balance data.records
          logs := logs })
  | none =>
      let newRecord : MonthlyRecord :=
        { id := recId, accountId := accountId, year := year, month := month,
          balance := balance }
      (newRecord, { data with records := data.records ++ [newRecord], logs := logs })

/-- `deleteMonthlyRecord` of `storage.ts`. -/
def deleteMonthlyRecord (recordId : String) (s : AppState) : Bool × AppState :=
  let data := loadData s
  if data.records.any (fun r => r.id == recordId) then
    (true, { data with records := eraseFirst (fun r => r.id == recordId) data.records })
  else (false, s)

/-! ## Import / export (`storage.ts`) -/

/-- The range-membership test of `exportDataByRange`: `year*100+month`
between the start key and the end key, inclusive. -/
def inRange (startYear startMonth endYear endMonth : Int) (year month : Int) : Bool :=
  let key := year * 100 + month
  let startKey := startYear * 100 + startMonth
  let endKey := endYear * 100 + endMonth
  startKey ≤ key && key ≤ endKey

/-- The parsed shape of an import/export payload: a JSON object that may or
may not carry each of the four fields.  (Partial settings objects are
modelled as a whole `AppSettings`, which is what the spread over the default
settings produces for a well-typed payload.) -/
structure ImportPayload where
  accounts : Option (List Account) := none
  records : Option (List MonthlyRecord) := none
  logs : Option (List RecordLog) := none
  settings : Option AppSettings := none
deriving DecidableEq

/-- `exportDataByRange` of `storage.ts`, returning the payload structure that
the emitted JSON string denotes. -/
def exportDataByRange (startYear startMonth endYear endMonth : Int) (s : AppState) :
    ImportPayload :=
  let data := loadData s
  let filteredRecords :=
    data.records.filter (fun r => inRange startYear startMonth endYear endMonth r.year r.month)
  let filteredLogs :=
    data.logs.filter (fun l => inRange startYear startMonth endYear endMonth l.year l.month)
  { accounts := some data.accounts, records := some filteredRecords,
    logs := some filteredLogs, settings := none }

/-- The two period-targeted import policies of `importData`. -/
inductive MergeMode where
  | overwrite
  | merge
deriving DecidableEq

/-- `importData` of `storage.ts`.  `parsed` is the result of
`JSON.parse(jsonString)` (`none` when parsing throws); `gid` enumerates the
`generateId()` results used to re-stamp imported records and logs, and `now`
is `Date.now()`.  Returns the success flag and the new stored document. -/
def importData (gid : Nat → String) (now : Int) (parsed : Option ImportPayload)
    (targetYear targetMonth : Option Int) (mergeMode : MergeMode) (s : AppState) :
    Bool × AppState :=
  match parsed with
  | none => (false, s)
  | some d =>
      match d.accounts, d.records with
      | some dataAccounts, some dataRecords =>
          let currentData := loadData s
          match targetYear, targetMonth with
          | some ty, some tm =>
              let currentData :=
                match mergeMode with
                | MergeMode.overwrite =>
                    { currentData with
                      records := currentData.records.filter
                        (fun r => !(r.year == ty && r.month == tm))
                      logs := currentData.logs.filter
                        (fun l => !(l.year == ty && l.month == tm)) }
                | MergeMode.merge => currentData
              let importedRecords := dataRecords.mapIdx (fun i r =>
                { r with id := gid i, year := ty, month := tm })
              let importedLogs := (d.logs.getD []).mapIdx (fun i l =>
                { l with id := gid (dataRecords.length + i), year := ty, month := tm,
                         timestamp := now })
              let existingIds := currentData.accounts.map (fun a => a.id)
              let newAccounts := dataAccounts.filter (fun a => !(existingIds.contains a.id))
              (true,
                { currentData with
                  accounts := currentData.accounts ++ newAccounts
                  records := currentData.records ++ importedRecords
                  logs := currentData.logs ++ importedLogs })
          | _, _ =>
              (true,
                { accounts := dataAccounts, records := dataRecords,
                  logs := d.logs.getD [],
                  settings := d.settings.getD defaultSettings,
                  version := CURRENT_VERSION })
      | _, _ => (false, s)

/-! ## Aggregation engine (calculations module) -/

/-- `getAllAccounts` of `storage.ts`. -/
def getAllAccounts (s : AppState) : List Account :=
  (loadData s).accounts

/-- `getMonthlyRecordsByMonth` of `storage.ts`. -/
def getMonthlyRecordsByMonth (year month : Int) (s : AppState) : List MonthlyRecord :=
  (loadData s).records.filter (fun r => r.year == year && r.month == month)

/-- The balance-resolution idiom repeated in every aggregation loop:
`records.find(r => r.accountId === account.id)`, falling back to the
account's baseline balance. -/
def resolveBalance (records : List MonthlyRecord) (account : Account) : Rat :=
  match records.find? (fun r => r.accountId == account.id) with
  | some r => r.balance
  | none => account.balance

/-- Loop body of `calculateTotalAssets`. -/
def assetsStep (records : List MonthlyRecord) (total : Rat) (account : Account) : Rat :=
  if account.isHidden then total
  else
    let balance := resolveBalance records account
    if account.type = AccountType.credit then
      if balance < 0 then total + |balance| else total
    else if account.type = AccountType.debt then total
    else total + balance

/-- `calculateTotalAssets` of the calculations module. -/
def calculateTotalAssets (year month : Int) (s : AppState) : Rat :=
  let accounts := getAllAccounts s
  let records := getMonthlyRecordsByMonth year month s
  accounts.foldl (assetsStep records) 0

/-- Loop body of `calculateTotalLiabilities` (two independent conditions in
the source, executed in sequence). -/
def liabilitiesStep (records : List MonthlyRecord) (total : Rat) (account : Account) : Rat :=
  if account.isHidden then total
  else
    let balance := resolveBalance records account
    let total := if account.type = AccountType.credit ∧ balance > 0
      then total + balance else total
    if account.type = AccountType.debt then total + |balance| else total

/-- `calculateTotalLiabilities` of the calculations module. -/
def calculateTotalLiabilities (year month : Int) (s : AppState) : Rat :=
  let accounts := getAllAccounts s
  let records := getMonthlyRecordsByMonth year month s
  accounts.foldl (liabilitiesStep records) 0

/-- `calculateNetWorth` of the calculations module. -/
def calculateNetWorth (year month : Int) (s : AppState) : Rat :=
  calculateTotalAssets year month s - calculateTotalLiabilities year month s

/-- Loop body of `calculateLoanOut` (note: no `isHidden` filter in the
source). -/
def loanOutStep (records : List MonthlyRecord) (total : Rat) (account : Account) : Rat :=
  if account.type = AccountType.loan then total + resolveBalance records account else total

/-- `calculateLoanOut` of the calculations module. -/
def calculateLoanOut (year month : Int) (s : AppState) : Rat :=
  let accounts := getAllAccounts s
  let records := getMonthlyRecordsByMonth year month s
  accounts.foldl (loanOutStep records) 0

/-- Loop body of `calculateDebtIn` (note: no `isHidden` filter in the
source). -/
def debtInStep (records : List MonthlyRecord) (total : Rat) (account : Account) : Rat :=
  if account.type = AccountType.debt then total + |resolveBalance records account| else total

/-- `calculateDebtIn` of the calculations module. -/
def calculateDebtIn (year month : Int) (s : AppState) : Rat :=
  let accounts := getAllAccounts s
  let records := getMonthlyRecordsByMonth year month s
  accounts.foldl (debtInStep records) 0

/-- The prior-period computation shared by `getMonthlyNetWorth` and
`copyLastMonthBalances`: decrement the month, rolling over to December of the
previous year. -/
def prevYearMonth (year month : Int) : Int × Int :=
  let lastYear := year
  let lastMonth := month - 1
  if lastMonth = 0 then (lastYear - 1, 12) else (lastYear, lastMonth)

/-- `MonthlyNetWorth` from `src/types/index.ts`. -/
structure MonthlyNetWorth where
  year : Int
  month : Int
  netWorth : Rat
  totalAssets : Rat
  totalLiabilities : Rat
  change : Rat
  changePercent : Rat
deriving DecidableEq

/-- `getMonthlyNetWorth` of the calculations module. -/
def getMonthlyNetWorth (year month : Int) (s : AppState) : MonthlyNetWorth :=
  let totalAssets := calculateTotalAssets year month s
  let totalLiabilities := calculateTotalLiabilities year month s
  let netWorth := totalAssets - totalLiabilities
  let last := prevYearMonth year month
  let lastNetWorth := calculateNetWorth last.1 last.2 s
  let change := netWorth - lastNetWorth
  let changePercent := if lastNetWorth ≠ 0 then change / |lastNetWorth| * 100 else 0
  { year := year, month := month, netWorth := netWorth, totalAssets := totalAssets,
    totalLiabilities := totalLiabilities, change := change, changePercent := changePercent }

/-- `getLastRecordedMonth` of the calculations module: `Math.max` over the
months of the records of `year`, `0` when the year has none. -/
def getLastRecordedMonth (year : Int) (s : AppState) : Int :=
  let yearRecords := (loadData s).records.filter (fun r => r.year == year)
  if yearRecords.length = 0 then 0
  else ((yearRecords.map (fun r => r.month)).max?).getD 0

/-- `YearlyNetWorth` from `src/types/index.ts`. -/
structure YearlyNetWorth where
  year : Int
  netWorth : Rat
  totalAssets : Rat
  totalLiabilities : Rat
  lastRecordedMonth : Int
  change : Rat
  changePercent : Rat
deriving DecidableEq

/-- `getYearlyNetWorth` of the calculations module (`getLastRecordedMonth(year)
|| 12` becomes: 12 when the result is 0). -/
def getYearlyNetWorth (year : Int) (s : AppState) : YearlyNetWorth :=
  let lastMonth := if getLastRecordedMonth year s = 0 then 12 else getLastRecordedMonth year s
  let totalAssets := calculateTotalAssets year lastMonth s
  let totalLiabilities := calculateTotalLiabilities year lastMonth s
  let netWorth := totalAssets - totalLiabilities
  let lastYearNetWorth := calculateNetWorth (year - 1) 12 s
  let change := netWorth - lastYearNetWorth
  let changePercent :=
    if lastYearNetWorth ≠ 0 then change / |lastYearNetWorth| * 100 else 0
  { year := year, netWorth := netWorth, totalAssets := totalAssets,
    totalLiabilities := totalLiabilities, lastRecordedMonth := lastMonth,
    change := change, changePercent := changePercent }

/-- Loop body of `copyLastMonthBalances`: upsert the balance of one
previous-month record into the target `(year, month)`; the fresh id for a
pushed record is `gid i` where `i` is the iteration index. -/
def copyStep (gid : Nat → String) (year month : Int)
    (records : List MonthlyRecord) (ir : Nat × MonthlyRecord) : List MonthlyRecord :=
  if records.any (recordMatches ir.2.accountId year month) then
    setFirstBalance (recordMatches ir.2.accountId year month) ir.2.balance records
  else
    records ++
      [{ id := gid ir.1, accountId := ir.2.accountId, year := year, month := month,
         balance := ir.2.balance }]

/-- `copyLastMonthBalances` of the calculations module.  The calculations
module ships its own `saveData` that rewrites the version field to `"1.1"`. -/
def copyLastMonthBalances (gid : Nat → String) (year month : Int) (s : AppState) : AppState :=
  let data := loadData s
  let last := prevYearMonth year month
  let lastMonthRecords :=
    data.records.filter (fun r => r.year == last.1 && r.month == last.2)
  { data with
    records := lastMonthRecords.enum.foldl (copyStep gid year month) data.records
    version := "1.1" }

/-! ## The per-tuple uniqueness invariant -/

/-- The invariant of spec §3: at most one monthly record per
`(account, year, month)` tuple. -/
def UniqRecords (rs : List MonthlyRecord) : Prop :=
  (rs.map recordCoords).Nodup

instance (rs : List MonthlyRecord) : Decidable (UniqRecords rs) := by
  unfold UniqRecords; infer_instance

/-! ## General lemmas about the embedding's list idioms -/

theorem map_recordCoords_setFirstBalance (p : MonthlyRecord → Bool) (b : Rat) :
    ∀ rs : List MonthlyRecord,
      (setFirstBalance p b rs).map recordCoords = rs.map recordCoords := by
  intro rs
  induction rs with
  | nil => rfl
  | cons r rs ih =>
      by_cases hp : p r
      · simp [setFirstBalance, hp, recordCoords]
      · simp [setFirstBalance, hp, ih]

theorem recordMatches_iff_coords (accountId : String) (year month : Int)
    (r : MonthlyRecord) :
    recordMatches accountId year month r = true ↔ recordCoords r = (accountId, year, month) := by
  simp [recordMatches, recordCoords, Prod.ext_iff, and_assoc]

theorem uniqRecords_concat (rs : List MonthlyRecord) (r : MonthlyRecord) :
    UniqRecords (rs ++ [r]) ↔
      UniqRecords rs ∧ recordCoords r ∉ rs.map recordCoords := by
  simp [UniqRecords, List.nodup_append, List.disjoint_left]

theorem setFirstBalance_uniq (p : MonthlyRecord → Bool) (b : Rat)
    (rs : List MonthlyRecord) (h : UniqRecords rs) :
    UniqRecords (setFirstBalance p b rs) := by
  unfold UniqRecords at h ⊢
  rw [map_recordCoords_setFirstBalance]
  exact h

/-- A `Rat`-valued loop body that only ever adds something to the running
total commutes with translation of the accumulator. -/
theorem foldl_add_shift {α : Type} (f : Rat → α → Rat)
    (hf : ∀ t c a, f (t + c) a = f t a + c) :
    ∀ (l : List α) (t c : Rat), l.foldl f (t + c) = l.foldl f t + c := by
  intro l
  induction l with
  | nil => intro t c; rfl
  | cons x xs ih => intro t c; simp only [List.foldl_cons]; rw [hf, ih]

/-- Removing one list element whose loop-body contribution is `c` lowers such
a fold by exactly `c`. -/
theorem foldl_middle_contribution {α : Type} (f : Rat → α → Rat)
    (hf : ∀ t c a, f (t + c) a = f t a + c)
    (l₁ l₂ : List α) (a : α) (c : Rat) (ha : ∀ t, f t a = t + c) (init : Rat) :
    (l₁ ++ a :: l₂).foldl f init = (l₁ ++ l₂).foldl f init + c := by
  rw [List.foldl_append, List.foldl_append, List.foldl_cons, ha, foldl_add_shift f hf]

/-- Removing a list element whose loop-body contribution is zero leaves such
a fold unchanged. -/
theorem foldl_middle_id {α : Type} (f : Rat → α → Rat)
    (hf : ∀ t c a, f (t + c) a = f t a + c)
    (l₁ l₂ : List α) (a : α) (ha : ∀ t, f t a = t) (init : Rat) :
    (l₁ ++ a :: l₂).foldl f init = (l₁ ++ l₂).foldl f init := by
  have h := foldl_middle_contribution f hf l₁ l₂ a 0 (fun t => by rw [ha]; ring) init
  simpa using h

theorem assetsStep_add (rs : List MonthlyRecord) (t c : Rat) (a : Account) :
    assetsStep rs (t + c) a = assetsStep rs t a + c := by
  simp only [assetsStep]
  split_ifs <;> ring

theorem liabilitiesStep_add (rs : List MonthlyRecord) (t c : Rat) (a : Account) :
    liabilitiesStep rs (t + c) a = liabilitiesStep rs t a + c := by
  simp only [liabilitiesStep]
  split_ifs <;> ring

theorem loanOutStep_add (rs : List MonthlyRecord) (t c : Rat) (a : Account) :
    loanOutStep rs (t + c) a = loanOutStep rs t a + c := by
  simp only [loanOutStep]
  split_ifs <;> ring

theorem debtInStep_add (rs : List MonthlyRecord) (t c : Rat) (a : Account) :
    debtInStep rs (t + c) a = debtInStep rs t a + c := by
  simp only [debtInStep]
  split_ifs <;> ring

theorem assetsStep_hidden (rs : List MonthlyRecord) (t : Rat) (a : Account)
    (h : a.isHidden = true) : assetsStep rs t a = t := by
  simp [assetsStep, h]

theorem liabilitiesStep_hidden (rs : List MonthlyRecord) (t : Rat) (a : Account)
    (h : a.isHidden = true) : liabilitiesStep rs t a = t := by
  simp [liabilitiesStep, h]

theorem assetsStep_credit (rs : List MonthlyRecord) (t : Rat) (a : Account)
    (hh : a.isHidden = false) (ht : a.type = AccountType.credit) :
    assetsStep rs t a =
      t + (if resolveBalance rs a < 0 then |resolveBalance rs a| else 0) := by
  simp only [assetsStep, hh, ht, Bool.false_eq_true, if_false, if_true]
  split_ifs <;> simp

theorem liabilitiesStep_credit (rs : List MonthlyRecord) (t : Rat) (a : Account)
    (hh : a.isHidden = false) (ht : a.type = AccountType.credit) :
    liabilitiesStep rs t a =
      t + (if 0 < resolveBalance rs a then resolveBalance rs a else 0) := by
  simp only [liabilitiesStep, hh, ht, Bool.false_eq_true, if_false]
  split_ifs <;> simp_all

/-! ## Concrete fixtures used by counterexamples and witnesses -/

/-- A hidden loan-type account with balance 100. -/
def hiddenLoanAccount : Account :=
  { id := "A", name := "hidden loan", type := AccountType.loan, icon := "handshake",
    balance := 100, includeInTotal := true, isHidden := true }

/-- A hidden cash-type account with balance 7. -/
def hiddenCashAccount : Account :=
  { id := "B", name := "hidden cash", type := AccountType.cash, icon := "banknote",
    balance := 7, includeInTotal := true, isHidden := true }

/-- A visible credit-type account with balance −50 (overpayment). -/
def creditMinusAccount : Account :=
  { id := "C", name := "card", type := AccountType.credit, icon := "credit-card",
    balance := -50, includeInTotal := true, isHidden := false }

/-- A visible credit-type account with balance +50 (owed). -/
def creditPlusAccount : Account :=
  { id := "D", name := "card", type := AccountType.credit, icon := "credit-card",
    balance := 50, includeInTotal := true, isHidden := false }

/-! ## C1: hidden accounts and the aggregates -/

/-- C1 counterexample: a hidden loan-type account is NOT excluded from
`calculateLoanOut` — with one hidden loan account of balance 100 the loan-out
total is 100, against 0 for the document without it, so a hidden account does
contribute to an Aggregation Engine function. -/
theorem c1_counterexample :
    hiddenLoanAccount.isHidden = true ∧
    calculateLoanOut 2024 1 { defaultState with accounts := [hiddenLoanAccount] } = 100 ∧
    calculateLoanOut 2024 1 defaultState = 0 := by
  refine ⟨rfl, ?_, rfl⟩
  simp [calculateLoanOut, getAllAccounts, getMonthlyRecordsByMonth, loadData, defaultState,
    hiddenLoanAccount, loanOutStep, resolveBalance]

/-- C1 (amended): an account with `isHidden = true` contributes nothing to
`calculateTotalAssets`, `calculateTotalLiabilities` and `calculateNetWorth`
for every document state and every (year, month); it is, however, not
excluded from `calculateLoanOut` and `calculateDebtIn`. -/
theorem c1_hidden_excluded (s : AppState) (l₁ l₂ : List Account) (a : Account)
    (year month : Int) (ha : a.isHidden = true) :
    calculateTotalAssets year month { s with accounts := l₁ ++ a :: l₂ } =
        calculateTotalAssets year month { s with accounts := l₁ ++ l₂ } ∧
    calculateTotalLiabilities year month { s with accounts := l₁ ++ a :: l₂ } =
        calculateTotalLiabilities year month { s with accounts := l₁ ++ l₂ } ∧
    calculateNetWorth year month { s with accounts := l₁ ++ a :: l₂ } =
        calculateNetWorth year month { s with accounts := l₁ ++ l₂ } := by
  have hA : calculateTotalAssets year month { s with accounts := l₁ ++ a :: l₂ } =
      calculateTotalAssets year month { s with accounts := l₁ ++ l₂ } := by
    simp only [calculateTotalAssets, getAllAccounts, getMonthlyRecordsByMonth, loadData]
    exact foldl_middle_id _ (assetsStep_add _) l₁ l₂ a
      (fun t => assetsStep_hidden _ _ _ ha) 0
  have hL : calculateTotalLiabilities year month { s with accounts := l₁ ++ a :: l₂ } =
      calculateTotalLiabilities year month { s with accounts := l₁ ++ l₂ } := by
    simp only [calculateTotalLiabilities, getAllAccounts, getMonthlyRecordsByMonth, loadData]
    exact foldl_middle_id _ (liabilitiesStep_add _) l₁ l₂ a
      (fun t => liabilitiesStep_hidden _ _ _ ha) 0
  exact ⟨hA, hL, by simp [calculateNetWorth, hA, hL]⟩

/-- C1 witness: the amended exclusion at a concrete hidden cash account. -/
theorem c1_witness :
    calculateTotalAssets 2024 1 { defaultState with accounts := [hiddenCashAccount] } =
        calculateTotalAssets 2024 1 { defaultState with accounts := [] } ∧
    calculateTotalLiabilities 2024 1 { defaultState with accounts := [hiddenCashAccount] } =
        calculateTotalLiabilities 2024 1 { defaultState with accounts := [] } ∧
    calculateNetWorth 2024 1 { defaultState with accounts := [hiddenCashAccount] } =
        calculateNetWorth 2024 1 { defaultState with accounts := [] } := by
  have h := c1_hidden_excluded defaultState [] [] hiddenCashAccount 2024 1 rfl
  simpa using h

/-! ## C7: credit-type accounts split between assets and liabilities -/

/-- C7: for every document state and (year, month), a non-hidden credit-type
account contributes, to total assets, exactly the absolute value of the
negative (overpayment) portion of its resolved balance, and, to total
liabilities, exactly the positive (owed) portion. -/
theorem c7_credit_split (s : AppState) (l₁ l₂ : List Account) (a : Account)
    (year month : Int) (hh : a.isHidden = false) (ht : a.type = AccountType.credit) :
    calculateTotalAssets year month { s with accounts := l₁ ++ a :: l₂ } =
        calculateTotalAssets year month { s with accounts := l₁ ++ l₂ } +
          (if resolveBalance (getMonthlyRecordsByMonth year month s) a < 0
            then |resolveBalance (getMonthlyRecordsByMonth year month s) a| else 0) ∧
    calculateTotalLiabilities year month { s with accounts := l₁ ++ a :: l₂ } =
        calculateTotalLiabilities year month { s with accounts := l₁ ++ l₂ } +
          (if 0 < resolveBalance (getMonthlyRecordsByMonth year month s) a
            then resolveBalance (getMonthlyRecordsByMonth year month s) a else 0) := by
  constructor
  · simp only [calculateTotalAssets, getAllAccounts, getMonthlyRecordsByMonth, loadData]
    exact foldl_middle_contribution _ (assetsStep_add _) l₁ l₂ a _
      (fun t => assetsStep_credit _ _ _ hh ht) 0
  · simp only [calculateTotalLiabilities, getAllAccounts, getMonthlyRecordsByMonth, loadData]
    exact foldl_middle_contribution _ (liabilitiesStep_add _) l₁ l₂ a _
      (fun t => liabilitiesStep_credit _ _ _ hh ht) 0

/-- C7 witness: a credit account of balance −50 contributes +50 to assets and
0 to liabilities; one of balance +50 contributes 0 to assets and +50 to
liabilities. -/
theorem c7_witness :
    calculateTotalAssets 2024 1 { defaultState with accounts := [creditMinusAccount] } = 50 ∧
    calculateTotalLiabilities 2024 1 { defaultState with accounts := [creditMinusAccount] } = 0 ∧
    calculateTotalAssets 2024 1 { defaultState with accounts := [creditPlusAccount] } = 0 ∧
    calculateTotalLiabilities 2024 1 { defaultState with accounts := [creditPlusAccount] } = 50 := by
  have h1 := c7_credit_split defaultState [] [] creditMinusAccount 2024 1 rfl rfl
  have h2 := c7_credit_split defaultState [] [] creditPlusAccount 2024 1 rfl rfl
  simp only [List.nil_append, List.append_nil] at h1 h2
  rw [h1.1, h1.2, h2.1, h2.2]
  norm_num [resolveBalance, getMonthlyRecordsByMonth, loadData, defaultState,
    creditMinusAccount, creditPlusAccount, calculateTotalAssets, calculateTotalLiabilities,
    getAllAccounts]

/-! ## C8: guarded percent change -/

/-- C8: the percent-change figure of `getMonthlyNetWorth` and
`getYearlyNetWorth` is exactly 0 whenever the prior period's net worth is
exactly 0, so the division by the prior net worth is never evaluated in that
case. -/
theorem c8_percent_change_guard (s : AppState) (year month : Int) :
    (calculateNetWorth (prevYearMonth year month).1 (prevYearMonth year month).2 s = 0 →
      (getMonthlyNetWorth year month s).changePercent = 0) ∧
    (calculateNetWorth (year - 1) 12 s = 0 →
      (getYearlyNetWorth year s).changePercent = 0) := by
  constructor
  · intro h
    simp [getMonthlyNetWorth, h]
  · intro h
    simp [getYearlyNetWorth, h]

/-- C8 witness: on the empty document both prior net worths are 0 and both
percent-change figures evaluate to 0. -/
theorem c8_witness :
    (getMonthlyNetWorth 2024 1 defaultState).changePercent = 0 ∧
    (getYearlyNetWorth 2024 defaultState).changePercent = 0 := by
  have h := c8_percent_change_guard defaultState 2024 1
  exact ⟨h.1 (by norm_num [calculateNetWorth, calculateTotalAssets, calculateTotalLiabilities,
      getAllAccounts, loadData, defaultState]),
    h.2 (by norm_num [calculateNetWorth, calculateTotalAssets, calculateTotalLiabilities,
      getAllAccounts, loadData, defaultState])⟩

/-! ## C5: malformed import input -/

/-- C5: `importData` on malformed input — an unparseable payload, or one
missing the accounts or records field — returns false and leaves the stored
document exactly unchanged, for every target period and merge mode. -/
theorem c5_malformed_import (gid : Nat → String) (now : Int)
    (parsed : Option ImportPayload) (targetYear targetMonth : Option Int)
    (mode : MergeMode) (s : AppState)
    (h : parsed = none ∨ ∃ d, parsed = some d ∧ (d.accounts = none ∨ d.records = none)) :
    importData gid now parsed targetYear targetMonth mode s = (false, s) := by
  rcases h with rfl | ⟨d, rfl, hd⟩
  · rfl
  · rcases hd with h1 | h1 <;>
      rcases ha : d.accounts with _ | accs <;>
      rcases hr : d.records with _ | recs <;>
      simp_all [importData]

/-- C5 witness: an unparseable payload and a payload missing `records` both
leave a concrete document untouched and report failure. -/
theorem c5_witness :
    importData (fun _ => "g") 0 none (some 2024) (some 5) MergeMode.overwrite defaultState =
        (false, defaultState) ∧
    importData (fun _ => "g") 0 (some { accounts := some [] }) none none MergeMode.merge
        defaultState = (false, defaultState) := by
  exact ⟨c5_malformed_import _ _ _ _ _ _ _ (Or.inl rfl),
    c5_malformed_import _ _ _ _ _ _ _ (Or.inr ⟨_, rfl, Or.inr rfl⟩)⟩

/-! ## C6: export-then-import round trip -/

/-- C6: serializing any document over an inclusive year-month range with
`exportDataByRange` and importing the result with `importData` in
whole-document-replace mode (no target period) yields the document with the
same accounts and with records and logs restricted to the range (membership
by `year*100+month` comparison); the call reports success. -/
theorem c6_export_import_roundtrip (gid : Nat → String) (now : Int)
    (startYear startMonth endYear endMonth : Int) (mode : MergeMode) (s : AppState) :
    importData gid now (some (exportDataByRange startYear startMonth endYear endMonth s))
        none none mode s =
      (true,
        { accounts := s.accounts
          records := s.records.filter
            (fun r => inRange startYear startMonth endYear endMonth r.year r.month)
          logs := s.logs.filter
            (fun l => inRange startYear startMonth endYear endMonth l.year l.month)
          settings := defaultSettings
          version := CURRENT_VERSION }) := by
  rfl

/-! ## C3: unknown identifiers -/

/-- C3 counterexample: `setMonthlyRecord` called with an account id not
present in the document is NOT a no-op: on the empty document it inserts a
monthly record for the unknown account and returns that record rather than an
absence signal. -/
theorem c3_counterexample :
    (∀ a ∈ defaultState.accounts, a.id ≠ "ghost") ∧
    (setMonthlyRecord "log1" "rec1" 0 "ghost" 2024 1 5 defaultState).2 ≠ defaultState ∧
    (setMonthlyRecord "log1" "rec1" 0 "ghost" 2024 1 5 defaultState).2.records =
      [{ id := "rec1", accountId := "ghost", year := 2024, month := 1, balance := 5 }] := by
  refine ⟨?_, by decide, by decide⟩
  intro a ha
  simp [defaultState] at ha

/-- C3 (amended): with an identifier not present in the document,
`updateAccount` and `deleteAccount` are no-ops that leave the stored document
unchanged and return an absence signal (null / false); `setMonthlyRecord`
with an unknown account id appends no RecordLog and leaves the accounts
unchanged, but it still upserts the monthly record (appending a fresh one
when none exists) and returns it instead of an absence signal.  None of the
operations throws. -/
theorem c3_unknown_id (s : AppState) (id : String)
    (h : ∀ a ∈ s.accounts, a.id ≠ id) :
    (∀ recId balLogId editLogId now curYear curMonth updates,
      updateAccount recId balLogId editLogId now curYear curMonth id updates s = (none, s)) ∧
    deleteAccount id s = (false, s) ∧
    (∀ logId recId now year month balance,
      (setMonthlyRecord logId recId now id year month balance s).2.logs = s.logs ∧
      (setMonthlyRecord logId recId now id year month balance s).2.accounts = s.accounts ∧
      (s.records.find? (recordMatches id year month) = none →
        (setMonthlyRecord logId recId now id year month balance s).2.records =
          s.records ++
            [{ id := recId, accountId := id, year := year, month := month,
               balance := balance }])) := by
  have hfind : s.accounts.find? (fun a => a.id == id) = none := by
    rw [List.find?_eq_none]
    intro a ha
    simpa using h a ha
  refine ⟨?_, ?_, ?_⟩
  · intro recId balLogId editLogId now curYear curMonth updates
    unfold updateAccount loadData
    simp only [hfind]
  · have hany : s.accounts.any (fun a => a.id == id) = false := by
      rw [List.any_eq_false]
      intro a ha
      simpa using h a ha
    unfold deleteAccount loadData
    simp only [hany, Bool.false_eq_true, if_false]
  · intro logId recId now year month balance
    unfold setMonthlyRecord loadData
    simp only [hfind]
    cases hrec : s.records.find? (recordMatches id year month) <;>
      simp [hrec]

/-- C3 witness: the amended statement at a concrete one-account document and
an id that is not in it. -/
theorem c3_witness :
    updateAccount "r" "bl" "el" 0 2024 1 "ghost" ({ name := some "x" } : AccountUpdates)
        { defaultState with accounts := [creditPlusAccount] } =
      (none, { defaultState with accounts := [creditPlusAccount] }) ∧
    deleteAccount "ghost" { defaultState with accounts := [creditPlusAccount] } =
      (false, { defaultState with accounts := [creditPlusAccount] }) ∧
    (setMonthlyRecord "l" "r" 0 "ghost" 2024 1 5
        { defaultState with accounts := [creditPlusAccount] }).2.logs = [] := by
  have h := c3_unknown_id { defaultState with accounts := [creditPlusAccount] } "ghost"
    (by decide)
  exact ⟨h.1 "r" "bl" "el" 0 2024 1 _, h.2.1, (h.2.2 "l" "r" 0 2024 1 5).1⟩

/-! ## C4: the account-edit log's balance fields -/

/-- A cash account with balance 100 used by the C4 statements. -/
def c4Account : Account :=
  { id := "a1", name := "old", type := AccountType.cash, icon := "banknote",
    balance := 100, includeInTotal := true, isHidden := false }

/-- A one-account document holding `c4Account`. -/
def c4State : AppState := { defaultState with accounts := [c4Account] }

/-- C4 counterexample: in a call of `updateAccount` that changes both the
balance (100 → 200) and the name, the appended account-edit RecordLog has
`oldBalance = 100` and `newBalance = 200`; since 100 ≠ 200 the two fields are
not both set to the account's current balance. -/
theorem c4_counterexample :
    ((updateAccount "r" "bl" "el" 7 2024 5 "a1"
        ({ balance := some 200, name := some "new" } : AccountUpdates) c4State).2.logs.map
      (fun l => (l.oldBalance, l.newBalance, l.operationType))) =
      [((100 : Rat), (200 : Rat), some OperationType.balance_change),
       ((100 : Rat), (200 : Rat), some OperationType.account_edit)] ∧
    (100 : Rat) ≠ (200 : Rat) := by
  exact ⟨by decide, by decide⟩

/-- C4 (amended): whenever `updateAccount(id, partial)` changes any of
name/note/type/icon, the appended account-edit RecordLog (the last log of
the resulting document) has `oldBalance` set to the account's pre-call
balance and `newBalance` set to the account's post-merge balance; the two
coincide — both the account's current balance — exactly in the calls that
apply no balance change, while a call that also changes the balance records
the old and the new balance. -/
theorem c4_account_edit_log (recId balLogId editLogId : String)
    (now curYear curMonth : Int) (id : String) (updates : AccountUpdates)
    (s : AppState) (oldAccount : Account)
    (hfind : s.accounts.find? (fun a => a.id == id) = some oldAccount)
    (hinfo : infoChanged oldAccount updates = true) :
    (updateAccount recId balLogId editLogId now curYear curMonth id updates
        s).2.logs.getLast? =
      some { id := editLogId, accountId := id,
             accountName := (applyUpdates oldAccount updates).name,
             year := curYear, month := curMonth,
             oldBalance := oldAccount.balance,
             newBalance := (applyUpdates oldAccount updates).balance,
             timestamp := now, operationType := some OperationType.account_edit } ∧
    ((updates.balance = none ∨ updates.balance = some oldAccount.balance) →
      (applyUpdates oldAccount updates).balance = oldAccount.balance) ∧
    (∀ b, updates.balance = some b → (applyUpdates oldAccount updates).balance = b) := by
  refine ⟨?_, ?_, ?_⟩
  · unfold updateAccount loadData
    simp only [hfind, hinfo, if_true]
    exact List.getLast?_concat _
  · rintro (hb | hb) <;> simp [applyUpdates, hb]
  · intro b hb
    simp [applyUpdates, hb]

/-- C4 witness: a name-only edit of a concrete account appends an
account-edit log whose old and new balance both equal the account's current
balance 100. -/
theorem c4_witness :
    (updateAccount "r" "bl" "el" 7 2024 5 "a1"
        ({ name := some "new" } : AccountUpdates) c4State).2.logs.getLast? =
      some { id := "el", accountId := "a1", accountName := "new", year := 2024, month := 5,
             oldBalance := 100, newBalance := 100, timestamp := 7,
             operationType := some OperationType.account_edit } := by
  have h := c4_account_edit_log "r" "bl" "el" 7 2024 5 "a1"
    ({ name := some "new" } : AccountUpdates) c4State c4Account (by decide) (by decide)
  simpa [applyUpdates, c4Account] using h.1

/-! ## C2: per-tuple uniqueness of monthly records -/

theorem coords_not_mem_of_find?_none (accountId : String) (year month : Int)
    (rs : List MonthlyRecord)
    (h : rs.find? (recordMatches accountId year month) = none) :
    (accountId, year, month) ∉ rs.map recordCoords := by
  rw [List.find?_eq_none] at h
  intro hmem
  obtain ⟨r, hr, hcoords⟩ := List.mem_map.mp hmem
  exact absurd ((recordMatches_iff_coords accountId year month r).mpr hcoords)
    (by simpa using h r hr)

theorem coords_not_mem_of_any_false (accountId : String) (year month : Int)
    (rs : List MonthlyRecord)
    (h : rs.any (recordMatches accountId year month) = false) :
    (accountId, year, month) ∉ rs.map recordCoords := by
  rw [List.any_eq_false] at h
  intro hmem
  obtain ⟨r, hr, hcoords⟩ := List.mem_map.mp hmem
  exact absurd ((recordMatches_iff_coords accountId year month r).mpr hcoords)
    (by simpa using h r hr)

theorem setMonthlyRecord_uniq (logId recId : String) (now : Int) (accountId : String)
    (year month : Int) (balance : Rat) (s : AppState) (h : UniqRecords s.records) :
    UniqRecords ((setMonthlyRecord logId recId now accountId year month balance s).2.records) := by
  unfold setMonthlyRecord loadData
  cases hrec : s.records.find? (recordMatches accountId year month) with
  | some r =>
      simp only [hrec]
      exact setFirstBalance_uniq _ _ _ h
  | none =>
      simp only [hrec]
      exact (uniqRecords_concat _ _).mpr
        ⟨h, coords_not_mem_of_find?_none accountId year month s.records hrec⟩

theorem updateAccount_uniq (recId balLogId editLogId : String)
    (now curYear curMonth : Int) (id : String) (updates : AccountUpdates)
    (s : AppState) (h : UniqRecords s.records) :
    UniqRecords ((updateAccount recId balLogId editLogId now curYear curMonth
      id updates s).2.records) := by
  unfold updateAccount loadData
  cases hfind : s.accounts.find? (fun a => a.id == id) with
  | none => simpa [hfind] using h
  | some oldAccount =>
      simp only [hfind]
      cases hb : updates.balance with
      | none => simpa using h
      | some b =>
          simp only
          split_ifs with hne hany
          · simpa using setFirstBalance_uniq (recordMatches id curYear curMonth) b _ h
          · refine (uniqRecords_concat _ _).mpr ⟨h, ?_⟩
            exact coords_not_mem_of_any_false id curYear curMonth s.records
              (by simpa using hany)
          · simpa using h

theorem addAccount_uniq (accId recId logId : String) (now curYear curMonth : Int)
    (account : NewAccountData) (s : AppState) (h : UniqRecords s.records)
    (hfresh : ∀ r ∈ s.records, r.accountId ≠ accId) :
    UniqRecords ((addAccount accId recId logId now curYear curMonth account s).2.records) := by
  simp only [addAccount, loadData]
  split_ifs with hbal
  · refine (uniqRecords_concat _ _).mpr ⟨h, ?_⟩
    intro hmem
    obtain ⟨r, hr, hcoords⟩ := List.mem_map.mp hmem
    have : r.accountId = accId := by
      simpa [recordCoords, Prod.ext_iff] using congrArg Prod.fst hcoords
    exact hfresh r hr this
  · exact h

theorem copyStep_uniq (gid : Nat → String) (year month : Int)
    (rs : List MonthlyRecord) (ir : Nat × MonthlyRecord) (h : UniqRecords rs) :
    UniqRecords (copyStep gid year month rs ir) := by
  unfold copyStep
  split_ifs with hany
  · exact setFirstBalance_uniq _ _ _ h
  · refine (uniqRecords_concat _ _).mpr ⟨h, ?_⟩
    exact coords_not_mem_of_any_false ir.2.accountId year month rs
      (by simpa using hany)

theorem copyFold_uniq (gid : Nat → String) (year month : Int) :
    ∀ (L : List (Nat × MonthlyRecord)) (rs : List MonthlyRecord),
      UniqRecords rs → UniqRecords (L.foldl (copyStep gid year month) rs)
  | [], _, h => h
  | x :: xs, rs, h =>
      copyFold_uniq gid year month xs (copyStep gid year month rs x)
        (copyStep_uniq gid year month rs x h)

theorem copyLastMonthBalances_uniq (gid : Nat → String) (year month : Int)
    (s : AppState) (h : UniqRecords s.records) :
    UniqRecords ((copyLastMonthBalances gid year month s).records) := by
  unfold copyLastMonthBalances loadData
  exact copyFold_uniq gid year month _ _ h

/-- C2 (amended): the at-most-one-record-per-(account, year, month)
invariant is preserved by `addAccount` (whose generated account id is fresh),
`updateAccount`, `setMonthlyRecord` (repeated calls with the same coordinates
update in place and never duplicate-insert) and `copyLastMonthBalances` — but
NOT by `importData`: its period-targeted merge mode re-dates imported records
to the target (year, month) and appends them without checking existing
coordinates, and its whole-document-replace mode copies the payload records
verbatim. -/
theorem c2_uniqueness_preserved (s : AppState) (h : UniqRecords s.records) :
    (∀ accId recId logId now curYear curMonth account,
      (∀ r ∈ s.records, r.accountId ≠ accId) →
        UniqRecords ((addAccount accId recId logId now curYear curMonth
          account s).2.records)) ∧
    (∀ recId balLogId editLogId now curYear curMonth id updates,
      UniqRecords ((updateAccount recId balLogId editLogId now curYear curMonth
        id updates s).2.records)) ∧
    (∀ logId recId now accountId year month balance,
      UniqRecords ((setMonthlyRecord logId recId now accountId year month
        balance s).2.records)) ∧
    (∀ gid year month,
      UniqRecords ((copyLastMonthBalances gid year month s).records)) := by
  refine ⟨?_, ?_, ?_, ?_⟩
  · intro accId recId logId now curYear curMonth account hfresh
    exact addAccount_uniq accId recId logId now curYear curMonth account s h hfresh
  · intro recId balLogId editLogId now curYear curMonth id updates
    exact updateAccount_uniq recId balLogId editLogId now curYear curMonth id updates s h
  · intro logId recId now accountId year month balance
    exact setMonthlyRecord_uniq logId recId now accountId year month balance s h
  · intro gid year month
    exact copyLastMonthBalances_uniq gid year month s h

/-- A cash account used by the C2 statements. -/
def mergeAccount : Account :=
  { id := "A", name := "cash", type := AccountType.cash, icon := "banknote",
    balance := 10, includeInTotal := true, isHidden := false }

/-- A document with one record for `("A", 2024, 5)`. -/
def mergeState : AppState :=
  { defaultState with
    accounts := [mergeAccount]
    records := [{ id := "r1", accountId := "A", year := 2024, month := 5, balance := 10 }] }

/-- An import payload with one record for account `"A"` (dated 2023-01). -/
def mergePayload : ImportPayload :=
  { accounts := some [mergeAccount]
    records := some [{ id := "rx", accountId := "A", year := 2023, month := 1, balance := 20 }] }

/-- `Omit<Account,'id'>` data for a fresh account used by the C2 witness. -/
def freshAccountData : NewAccountData :=
  { name := "new", type := AccountType.debit, icon := "credit-card", balance := 3,
    includeInTotal := true, isHidden := false }

/-- C2 counterexample: `importData` violates the uniqueness invariant: merging
a payload whose record is re-dated to the target period (2024, 5) into a
document that already has a record for account `"A"` in (2024, 5) produces
two records with coordinates `("A", 2024, 5)`. -/
theorem c2_counterexample :
    UniqRecords mergeState.records ∧
    ((importData (fun n => "g" ++ toString n) 0 (some mergePayload) (some 2024) (some 5)
        MergeMode.merge mergeState).2.records.map recordCoords) =
      [("A", 2024, 5), ("A", 2024, 5)] ∧
    ¬ UniqRecords ((importData (fun n => "g" ++ toString n) 0 (some mergePayload)
        (some 2024) (some 5) MergeMode.merge mergeState).2.records) := by
  exact ⟨by decide, by decide, by decide⟩

/-- C2 witness: the amended preservation at a concrete document with one
record, for each of the four mutations. -/
theorem c2_witness :
    UniqRecords ((addAccount "B" "r2" "l2" 0 2024 5 freshAccountData mergeState).2.records) ∧
    UniqRecords ((updateAccount "r3" "bl" "el" 0 2024 5 "A"
      ({ balance := some 11 } : AccountUpdates) mergeState).2.records) ∧
    UniqRecords ((setMonthlyRecord "l4" "r4" 0 "A" 2024 5 99 mergeState).2.records) ∧
    UniqRecords ((copyLastMonthBalances (fun n => "g" ++ toString n) 2024 6
      mergeState).records) := by
  have h := c2_uniqueness_preserved mergeState (by decide)
  exact ⟨h.1 "B" "r2" "l2" 0 2024 5 freshAccountData (by decide),
    h.2.1 "r3" "bl" "el" 0 2024 5 "A" _,
    h.2.2.1 "l4" "r4" 0 "A" 2024 5 99,
    h.2.2.2 (fun n => "g" ++ toString n) 2024 6⟩

/-! ## C9: copyLastMonthBalances -/

theorem setFirstBalance_mem_matches (aid : String) (y m : Int) (b : Rat) :
    ∀ rs : List MonthlyRecord, rs.any (recordMatches aid y m) = true →
      ∃ q ∈ setFirstBalance (recordMatches aid y m) b rs,
        recordMatches aid y m q = true ∧ q.balance = b := by
  intro rs
  induction rs with
  | nil => intro h; simp at h
  | cons r rs ih =>
      intro h
      by_cases hr : recordMatches aid y m r = true
      · refine ⟨{ r with balance := b }, ?_, ?_, rfl⟩
        · simp [setFirstBalance, hr]
        · simpa [recordMatches] using hr
      · have h2 : rs.any (recordMatches aid y m) = true := by
          simpa [List.any_cons, hr] using h
        obtain ⟨q, hq, hmq, hbq⟩ := ih h2
        exact ⟨q, by simp [setFirstBalance, hr, hq], hmq, hbq⟩

theorem setFirstBalance_mem_preserve (p : MonthlyRecord → Bool) (b : Rat)
    (q : MonthlyRecord) :
    ∀ rs : List MonthlyRecord, q ∈ rs → p q = false → q ∈ setFirstBalance p b rs := by
  intro rs
  induction rs with
  | nil => intro h; simp at h
  | cons r rs ih =>
      intro hq hpq
      by_cases hr : p r = true
      · rcases List.mem_cons.mp hq with rfl | hq2
        · rw [hr] at hpq; cases hpq
        · simp [setFirstBalance, hr, hq2]
      · rcases List.mem_cons.mp hq with rfl | hq2
        · simp [setFirstBalance, hr]
        · simp [setFirstBalance, hr, ih hq2 hpq]

theorem copyStep_establishes (gid : Nat → String) (y m : Int)
    (rs : List MonthlyRecord) (ir : Nat × MonthlyRecord) :
    ∃ q ∈ copyStep gid y m rs ir,
      recordMatches ir.2.accountId y m q = true ∧ q.balance = ir.2.balance := by
  unfold copyStep
  split_ifs with hany
  · exact setFirstBalance_mem_matches _ _ _ _ rs hany
  · refine ⟨_, List.mem_append_right _ (List.mem_singleton_self _), ?_, rfl⟩
    simp [recordMatches]

theorem copyStep_preserves (gid : Nat → String) (y m : Int)
    (rs : List MonthlyRecord) (ir : Nat × MonthlyRecord) (q : MonthlyRecord)
    (hq : q ∈ rs) (hne : q.accountId ≠ ir.2.accountId) :
    q ∈ copyStep gid y m rs ir := by
  unfold copyStep
  split_ifs with hany
  · apply setFirstBalance_mem_preserve _ _ _ rs hq
    have hb : (q.accountId == ir.2.accountId) = false := by
      simpa using hne
    simp [recordMatches, hb]
  · exact List.mem_append_left _ hq

theorem copyFold_preserves (gid : Nat → String) (y m : Int) :
    ∀ (L : List (Nat × MonthlyRecord)) (rs : List MonthlyRecord) (q : MonthlyRecord),
      q ∈ rs → (∀ p ∈ L, q.accountId ≠ p.2.accountId) →
      q ∈ L.foldl (copyStep gid y m) rs
  | [], _, _, hq, _ => hq
  | x :: xs, rs, q, hq, hne =>
      copyFold_preserves gid y m xs (copyStep gid y m rs x) q
        (copyStep_preserves gid y m rs x q hq (hne x (List.mem_cons_self x xs)))
        (fun p hp => hne p (List.mem_cons_of_mem x hp))

theorem copyFold_establishes (gid : Nat → String) (y m : Int) :
    ∀ (L : List (Nat × MonthlyRecord)) (rs : List MonthlyRecord),
      ((L.map (fun p => p.2.accountId)).Nodup) →
      ∀ p ∈ L, ∃ q ∈ L.foldl (copyStep gid y m) rs,
        recordMatches p.2.accountId y m q = true ∧ q.balance = p.2.balance := by
  intro L
  induction L with
  | nil => intro rs _ p hp; cases hp
  | cons x xs ih =>
      intro rs hnd p hp
      rw [List.map_cons, List.nodup_cons] at hnd
      rcases List.mem_cons.mp hp with rfl | hp2
      · obtain ⟨q, hq, hmq, hbq⟩ := copyStep_establishes gid y m rs p
        refine ⟨q, ?_, hmq, hbq⟩
        rw [List.foldl_cons]
        apply copyFold_preserves gid y m xs _ q hq
        intro p2 hp2
        have hqa : q.accountId = p.2.accountId := by
          have := (recordMatches_iff_coords p.2.accountId y m q).mp hmq
          simpa [recordCoords, Prod.ext_iff] using congrArg Prod.fst this
        rw [hqa]
        intro heq
        exact hnd.1 (heq ▸ List.mem_map_of_mem (fun r => r.2.accountId) hp2)
      · rw [List.foldl_cons]
        exact ih (copyStep gid y m rs x) hnd.2 p hp2

/-- C9: `copyLastMonthBalances(year, month)` copies balances silently: for
every document whose previous-month records obey the one-record-per-account
invariant, it leaves the accounts, the logs and the settings exactly
unchanged (in particular no RecordLog is appended), and for every
MonthlyRecord of the immediately preceding month the resulting document
contains a record at (year, month) with the same accountId and the same
balance. -/
theorem c9_copy_last_month (gid : Nat → String) (year month : Int) (s : AppState)
    (hnd : ((s.records.filter
        (fun r => r.year == (prevYearMonth year month).1 &&
          r.month == (prevYearMonth year month).2)).map
        (fun r => r.accountId)).Nodup) :
    (copyLastMonthBalances gid year month s).accounts = s.accounts ∧
    (copyLastMonthBalances gid year month s).logs = s.logs ∧
    (copyLastMonthBalances gid year month s).settings = s.settings ∧
    ∀ r ∈ s.records.filter
        (fun r => r.year == (prevYearMonth year month).1 &&
          r.month == (prevYearMonth year month).2),
      ∃ q ∈ (copyLastMonthBalances gid year month s).records,
        q.accountId = r.accountId ∧ q.year = year ∧ q.month = month ∧
        q.balance = r.balance := by
  refine ⟨rfl, rfl, rfl, ?_⟩
  intro r hr
  have hr2 : r ∈ (s.records.filter
      (fun r => r.year == (prevYearMonth year month).1 &&
        r.month == (prevYearMonth year month).2)).enum.map Prod.snd := by
    rw [List.enum_map_snd]
    exact hr
  obtain ⟨p, hp, hpr⟩ := List.mem_map.mp hr2
  have hn2 : (((s.records.filter
      (fun r => r.year == (prevYearMonth year month).1 &&
        r.month == (prevYearMonth year month).2)).enum.map
      (fun p => p.2.accountId)).Nodup) := by
    have : ((s.records.filter
        (fun r => r.year == (prevYearMonth year month).1 &&
          r.month == (prevYearMonth year month).2)).enum.map
        (fun p => p.2.accountId)) =
        ((s.records.filter
          (fun r => r.year == (prevYearMonth year month).1 &&
            r.month == (prevYearMonth year month).2)).map (fun r => r.accountId)) := by
      rw [show (fun p : Nat × MonthlyRecord => p.2.accountId) =
        (fun r : MonthlyRecord => r.accountId) ∘ Prod.snd from rfl,
        ← List.map_map, List.enum_map_snd]
    rw [this]
    exact hnd
  obtain ⟨q, hq, hmq, hbq⟩ := copyFold_establishes gid year month _ s.records hn2 p hp
  have hcoords := (recordMatches_iff_coords p.2.accountId year month q).mp hmq
  have h1 : q.accountId = p.2.accountId := by
    simpa [recordCoords, Prod.ext_iff] using congrArg Prod.fst hcoords
  have h2 : q.year = year := by
    simpa [recordCoords, Prod.ext_iff] using congrArg (fun t => t.2.1) hcoords
  have h3 : q.month = month := by
    simpa [recordCoords, Prod.ext_iff] using congrArg (fun t => t.2.2) hcoords
  exact ⟨q, hq, by rw [h1, hpr], h2, h3, by rw [hbq, hpr]⟩

/-- C9 witness: copying 2024-05 into 2024-06 on a concrete one-record
document leaves accounts and logs unchanged and yields a (2024, 6) record
for account "A" with the copied balance 10. -/
theorem c9_witness :
    (copyLastMonthBalances (fun n => "c" ++ toString n) 2024 6 mergeState).logs =
      mergeState.logs ∧
    (copyLastMonthBalances (fun n => "c" ++ toString n) 2024 6 mergeState).accounts =
      mergeState.accounts ∧
    ∃ q ∈ (copyLastMonthBalances (fun n => "c" ++ toString n) 2024 6 mergeState).records,
      q.accountId = "A" ∧ q.year = 2024 ∧ q.month = 6 ∧ q.balance = 10 := by
  have h := c9_copy_last_month (fun n => "c" ++ toString n) 2024 6 mergeState (by decide)
  refine ⟨h.2.1, h.1, ?_⟩
  obtain ⟨q, hq, h1, h2, h3, h4⟩ := h.2.2.2
    { id := "r1", accountId := "A", year := 2024, month := 5, balance := 10 } (by decide)
  exact ⟨q, hq, h1, h2, h3, h4⟩

/-! ## C10: deleteMonthlyRecord -/

theorem eraseFirst_eq_filter_of_nodup {α : Type} (key : α → String) (k : String) :
    ∀ l : List α, (l.map key).Nodup →
      eraseFirst (fun x => key x == k) l = l.filter (fun x => !(key x == k)) := by
  intro l
  induction l with
  | nil => intro; rfl
  | cons x xs ih =>
      intro h
      rw [List.map_cons, List.nodup_cons] at h
      by_cases hx : key x = k
      · have hxs : xs.filter (fun y => !(key y == k)) = xs := by
          rw [List.filter_eq_self]
          intro y hy
          have hne : key y ≠ k := by
            intro hk
            exact h.1 (by rw [hx, ← hk]; exact List.mem_map_of_mem key hy)
          simpa using hne
        simp [eraseFirst, hx, hxs]
      · simp [eraseFirst, hx, ih h.2]

/-- C10: on a document whose record ids are unique, `deleteMonthlyRecord`
with an id present in the records removes exactly that record (returning
true) and leaves all other records, the accounts, the logs and the settings
unchanged — no RecordLog is appended; with an id not present it returns
false and the stored document is fully unchanged. -/
theorem c10_delete_monthly_record (recordId : String) (s : AppState)
    (hnd : (s.records.map (fun r => r.id)).Nodup) :
    (s.records.any (fun r => r.id == recordId) = true →
      (deleteMonthlyRecord recordId s).1 = true ∧
      (deleteMonthlyRecord recordId s).2.records =
        s.records.filter (fun r => !(r.id == recordId)) ∧
      (deleteMonthlyRecord recordId s).2.accounts = s.accounts ∧
      (deleteMonthlyRecord recordId s).2.logs = s.logs ∧
      (deleteMonthlyRecord recordId s).2.settings = s.settings) ∧
    (s.records.any (fun r => r.id == recordId) = false →
      deleteMonthlyRecord recordId s = (false, s)) := by
  constructor
  · intro hany
    unfold deleteMonthlyRecord loadData
    simp only [hany, if_true]
    refine ⟨by trivial, ?_, by trivial, by trivial, by trivial⟩
    exact eraseFirst_eq_filter_of_nodup (fun r => r.id) recordId s.records hnd
  · intro hany
    unfold deleteMonthlyRecord loadData
    simp [hany]

/-- C10 witness: deleting the only record of a concrete document by its id
succeeds and empties the records while logs stay unchanged; deleting an
unknown id leaves the document fully unchanged and returns false. -/
theorem c10_witness :
    (deleteMonthlyRecord "r1" mergeState).1 = true ∧
    (deleteMonthlyRecord "r1" mergeState).2.records = [] ∧
    (deleteMonthlyRecord "r1" mergeState).2.logs = mergeState.logs ∧
    deleteMonthlyRecord "zzz" mergeState = (false, mergeState) := by
  have h := c10_delete_monthly_record "r1" mergeState (by decide)
  have h2 := c10_delete_monthly_record "zzz" mergeState (by decide)
  obtain ⟨ht, hrec, _, hl, _⟩ := h.1 (by decide)
  exact ⟨ht, by rw [hrec]; decide, hl, h2.2 (by decide)⟩

end Ledger
